import Mathlib

/-!
Shallow embedding of the mcp-ssh-tool core: the shell command builders, the
authentication resolver, the session manager, the execution engine, and the
log redaction helper, translated from the TypeScript sources. Theorems about
these definitions settle the specification claims.

Modeling conventions: machine time is a Nat parameter passed to every
operation that reads the clock; the external SSH and SFTP collaborators are
oracles supplied as explicit arguments; JavaScript truthiness tests on
optional strings and numbers are embedded by the jsTruthy helpers below.
-/

/-- Single quote character (ASCII 39). -/
def squo : Char := Char.ofNat 39

/-- Double quote character (ASCII 34). -/
def dquo : Char := Char.ofNat 34

/-- Backslash character (ASCII 92). -/
def bslash : Char := Char.ofNat 92

/-- JavaScript truthiness of an optional string: present and nonempty. -/
def jsTruthyStr : Option String → Bool
  | some s => s ≠ ""
  | none => false

/-- JavaScript truthiness of an optional number: present and nonzero. -/
def jsTruthyNat : Option Nat → Bool
  | some n => n ≠ 0
  | none => false

/-- JavaScript fallback a || b for an optional number, where 0 is falsy. -/
def jsOrNat : Option Nat → Nat → Nat
  | some n, d => if n = 0 then d else n
  | none, d => d

/-- JavaScript fallback a || b for an optional string, where the empty string is falsy. -/
def jsOrStr : Option String → String → String
  | some s, d => if s = "" then d else s
  | none, d => d

/-- JavaScript result.code || 0 where the code may be null. -/
def jsCodeOrZero : Option Int → Int
  | some n => if n = 0 then 0 else n
  | none => 0

/-- Boolean test that pat occurs as a prefix of s (character lists). -/
def listHasPrefixC : List Char → List Char → Bool
  | _, [] => true
  | [], _ :: _ => false
  | c :: cs, p :: ps => c = p && listHasPrefixC cs ps

/-- Boolean test that pat occurs as a substring of s (character lists),
embedding the JavaScript String.includes test. -/
def listIncludes : List Char → List Char → Bool
  | [], pat => pat.isEmpty
  | c :: rest, pat => listHasPrefixC (c :: rest) pat || listIncludes rest pat

/-- JavaScript s.includes(pat). -/
def includes (s pat : String) : Bool :=
  listIncludes s.toList pat.toList

/-! ## Shell command construction (src/src/process.ts, shell section) -/

/-- Replacement that shellQuote inserts for each embedded single quote:
close the quote, insert a double-quoted literal quote, reopen the quote.
This is the five character sequence produced by the regex replacement in the
source. -/
def shellQuoteSeq : List Char := [squo, dquo, squo, dquo, squo]

/-- Global replacement of every single quote character by shellQuoteSeq,
embedding the regex replace over the whole value. -/
def replaceQuote : List Char → List Char
  | [] => []
  | c :: rest => (if c = squo then shellQuoteSeq else [c]) ++ replaceQuote rest

/-- shellQuote from the source: wrap the value in single quotes, replacing
each embedded single quote by shellQuoteSeq. -/
def shellQuote (value : String) : String :=
  String.mk ([squo] ++ replaceQuote value.toList ++ [squo])

/-- Replacement that powerShellQuote inserts for each single quote: the
quote is doubled. -/
def psQuoteSeq : List Char := [squo, squo]

/-- Global replacement of every single quote character by psQuoteSeq. -/
def replacePS : List Char → List Char
  | [] => []
  | c :: rest => (if c = squo then psQuoteSeq else [c]) ++ replacePS rest

/-- powerShellQuote from the source: single quote wrap, doubling embedded
single quotes. -/
def powerShellQuote (value : String) : String :=
  String.mk ([squo] ++ replacePS value.toList ++ [squo])

/-- Target platform descriptor values from the source type Platform. -/
inductive Platform where
  | linux
  | darwin
  | windows
  | unknown
deriving DecidableEq, Repr

/-- Default shell descriptor values from the source type ShellType. -/
inductive ShellType where
  | bash
  | sh
  | powershell
  | cmd
  | unknown
deriving DecidableEq, Repr

/-- OSInfo from the source. The packageManager and init string unions are
embedded as plain strings. -/
structure OSInfo where
  platform : Platform
  distro : String
  version : String
  arch : String
  shell : String
  packageManager : String
  init : String
  defaultShell : Option ShellType
  tempDir : Option String
deriving DecidableEq, Repr

/-- buildPosixCommand from the source: optional env assignment prefixes,
optional cd prefix, then a single login shell wrap. The env record is an
association list; the test on it embeds env and Object.keys(env).length
greater than zero. -/
def buildPosixCommand (command : String) (cwd : Option String)
    (env : Option (List (String × String))) (shellName : String) : String :=
  let fullCommand :=
    if (env.getD []).length > 0 then
      String.intercalate " " ((env.getD []).map (fun kv => kv.1 ++ "=" ++ shellQuote kv.2))
        ++ " " ++ command
    else command
  let fullCommand :=
    if jsTruthyStr cwd then
      "cd " ++ shellQuote (cwd.getD "") ++ " && " ++ fullCommand
    else fullCommand
  shellName ++ " -lc " ++ shellQuote fullCommand

/-- buildPowerShellCommand from the source. -/
def buildPowerShellCommand (command : String) (cwd : Option String)
    (env : Option (List (String × String))) : String :=
  let envPart :=
    if (env.getD []).length > 0 then
      String.intercalate "; "
        ((env.getD []).map (fun kv => "$env:" ++ kv.1 ++ " = " ++ powerShellQuote kv.2)) ++ "; "
    else ""
  let cwdPart :=
    if jsTruthyStr cwd then "Set-Location -Path " ++ powerShellQuote (cwd.getD "") ++ "; "
    else ""
  "powershell -NoLogo -NoProfile -NonInteractive -ExecutionPolicy Bypass -Command "
    ++ powerShellQuote (envPart ++ cwdPart ++ command)

/-- buildRemoteCommand from the source: PowerShell on windows targets,
otherwise the POSIX builder with bash when the detected default shell is
bash and sh otherwise. -/
def buildRemoteCommand (command : String) (osInfo : OSInfo) (cwd : Option String)
    (env : Option (List (String × String))) : String :=
  if osInfo.platform = Platform.windows then
    buildPowerShellCommand command cwd env
  else
    buildPosixCommand command cwd env
      (if osInfo.defaultShell = some ShellType.bash then "bash" else "sh")

/-- buildSudoCommand from the source: fails on windows targets; otherwise
prefixes the optionally cd-wrapped command with either an echoed quoted
password piped into sudo -S -n, or plain sudo -n, and wraps the line with
the POSIX builder. -/
def buildSudoCommand (command : String) (osInfo : OSInfo) (password : Option String)
    (cwd : Option String) : Except String String :=
  if osInfo.platform = Platform.windows then
    Except.error "Sudo is not supported on Windows hosts"
  else
    let sudoCommand :=
      if jsTruthyStr cwd then "cd " ++ shellQuote (cwd.getD "") ++ " && " ++ command
      else command
    let piped :=
      if jsTruthyStr password then
        "echo " ++ shellQuote (password.getD "") ++ " | sudo -S -n " ++ sudoCommand
      else
        "sudo -n " ++ sudoCommand
    Except.ok (buildPosixCommand piped none none
      (if osInfo.defaultShell = some ShellType.bash then "bash" else "sh"))

/-! ## Helper lemmas about the quoting function -/

/-- Count of single quote characters in a character list. -/
def countQuote : List Char → Nat
  | [] => 0
  | c :: rest => (if c = squo then 1 else 0) + countQuote rest

theorem replaceQuote_of_no_sq (l : List Char) (h : squo ∉ l) : replaceQuote l = l := by
  induction l with
  | nil => rfl
  | cons c rest ih =>
    have hc : c ≠ squo := fun hceq => h (hceq ▸ List.mem_cons_self c rest)
    have hrest : squo ∉ rest := fun hm => h (List.mem_cons_of_mem c hm)
    simp [replaceQuote, hc, ih hrest]

theorem replaceQuote_length (l : List Char) :
    (replaceQuote l).length = l.length + 4 * countQuote l := by
  induction l with
  | nil => rfl
  | cons c rest ih =>
    by_cases hc : c = squo
    · simp [replaceQuote, countQuote, hc, shellQuoteSeq, ih]
      omega
    · simp [replaceQuote, countQuote, hc, ih]
      omega

/-! ## Error taxonomy (src errors and types modules) -/

/-- ErrorCode enum from the source. -/
inductive ErrorCode where
  | EAUTH
  | ECONN
  | ETIMEOUT
  | ENOSUDO
  | EPMGR
  | EFS
  | EPATCH
  | EBADREQ
deriving DecidableEq, Repr

/-- SSHMCPError from the source: machine readable code, message, optional hint. -/
structure SSHMCPError where
  code : ErrorCode
  message : String
  hint : Option String
deriving DecidableEq, Repr

/-- createAuthError from the source errors module. -/
def createAuthError (message : String) (hint : Option String) : SSHMCPError :=
  ⟨ErrorCode.EAUTH, message, hint⟩

/-- createConnectionError from the source errors module. -/
def createConnectionError (message : String) (hint : Option String) : SSHMCPError :=
  ⟨ErrorCode.ECONN, message, hint⟩

/-- createTimeoutError from the source errors module. -/
def createTimeoutError (message : String) (hint : Option String) : SSHMCPError :=
  ⟨ErrorCode.ETIMEOUT, message, hint⟩

/-- createSudoError from the source errors module. -/
def createSudoError (message : String) (hint : Option String) : SSHMCPError :=
  ⟨ErrorCode.ENOSUDO, message, hint⟩

/-! ## Authentication resolution (SessionManager auth helpers) -/

/-- Auth strategy selector values from ConnectionParams.auth. -/
inductive AuthStrategy where
  | auto
  | password
  | key
  | agent
deriving DecidableEq, Repr

/-- ConnectionParams from the source types module. -/
structure ConnectionParams where
  host : String
  username : String
  port : Option Nat
  auth : Option AuthStrategy
  password : Option String
  privateKey : Option String
  privateKeyPath : Option String
  passphrase : Option String
  useAgent : Option Bool
  readyTimeoutMs : Option Nat
  ttlMs : Option Nat
  strictHostKeyChecking : Option Bool
  knownHostsPath : Option String
deriving DecidableEq, Repr

/-- Resolved authentication material handed to the transport: exactly one of
a password, inline private key material with optional passphrase, or an
agent socket reference. -/
inductive AuthConfig where
  | password (password : String)
  | privateKey (privateKey : String) (passphrase : Option String)
  | agent (sock : String)
deriving DecidableEq, Repr

/-- Environment oracle for authentication resolution: readability and
contents of key files, the SSH_AUTH_SOCK variable, the home directory and
the SSH_DEFAULT_KEY_DIR variable. -/
structure AuthEnv where
  fileReadable : String → Bool
  fileContent : String → String
  sshAuthSock : Option String
  homeDir : String
  sshDefaultKeyDir : Option String

/-- loadPrivateKeyFromPath from the source: read the key file, failing with
an AuthError naming the path when unreadable. -/
def loadPrivateKeyFromPath (env : AuthEnv) (keyPath : String)
    (passphrase : Option String) : Except SSHMCPError AuthConfig :=
  if env.fileReadable keyPath then
    Except.ok (AuthConfig.privateKey (env.fileContent keyPath) passphrase)
  else
    Except.error (createAuthError ("Failed to load private key from " ++ keyPath)
      (some "Check if the file exists and is readable"))

/-- Conventional key file names probed by discovery, in modern to legacy
preference order, from the source. -/
def keyFiles : List String := ["id_ed25519", "id_rsa", "id_ecdsa", "id_dsa"]

/-- Discovery loop from the source: the first readable key file wins; a load
failure is caught and the loop continues. -/
def discoverLoop (env : AuthEnv) (keyDir : String) (passphrase : Option String) :
    List String → Option AuthConfig
  | [] => none
  | f :: rest =>
    if env.fileReadable (keyDir ++ "/" ++ f) then
      match loadPrivateKeyFromPath env (keyDir ++ "/" ++ f) passphrase with
      | Except.ok cfg => some cfg
      | Except.error _ => discoverLoop env keyDir passphrase rest
    else discoverLoop env keyDir passphrase rest

/-- discoverPrivateKeys from the source: probe the conventional names in the
configured key directory, defaulting to the .ssh directory under home; when
none is readable, fail with an AuthError whose hint enumerates every path
checked. -/
def discoverPrivateKeys (env : AuthEnv) (passphrase : Option String) :
    Except SSHMCPError AuthConfig :=
  let keyDir := jsOrStr env.sshDefaultKeyDir (env.homeDir ++ "/.ssh")
  match discoverLoop env keyDir passphrase keyFiles with
  | some cfg => Except.ok cfg
  | none =>
    Except.error (createAuthError "No SSH private keys found in standard locations"
      (some ("Checked: " ++ String.intercalate ", " (keyFiles.map (fun f => keyDir ++ "/" ++ f)))))

/-- buildKeyAuth from the source: inline key first, then explicit path, then
discovery. -/
def buildKeyAuth (env : AuthEnv) (params : ConnectionParams) :
    Except SSHMCPError AuthConfig :=
  if jsTruthyStr params.privateKey then
    Except.ok (AuthConfig.privateKey (params.privateKey.getD "") params.passphrase)
  else if jsTruthyStr params.privateKeyPath then
    loadPrivateKeyFromPath env (params.privateKeyPath.getD "") params.passphrase
  else
    discoverPrivateKeys env params.passphrase

/-- buildAgentAuth from the source: requires the SSH_AUTH_SOCK variable. -/
def buildAgentAuth (env : AuthEnv) : Except SSHMCPError AuthConfig :=
  if jsTruthyStr env.sshAuthSock then
    Except.ok (AuthConfig.agent (env.sshAuthSock.getD ""))
  else
    Except.error (createAuthError "SSH agent not available"
      (some "Set SSH_AUTH_SOCK environment variable or use a different auth method"))

/-- buildAutoAuth from the source: password first when truthy, then key
resolution, then agent, and a final AuthError when everything failed. -/
def buildAutoAuth (env : AuthEnv) (params : ConnectionParams) :
    Except SSHMCPError AuthConfig :=
  if jsTruthyStr params.password then
    Except.ok (AuthConfig.password (params.password.getD ""))
  else
    match buildKeyAuth env params with
    | Except.ok cfg => Except.ok cfg
    | Except.error _ =>
      match buildAgentAuth env with
      | Except.ok cfg => Except.ok cfg
      | Except.error _ =>
        Except.error (createAuthError "No suitable authentication method found"
          (some "Provide a password, private key, or ensure SSH agent is running"))

/-- buildAuthConfig from the source: dispatch on the auth strategy, where a
missing strategy (and the default switch arm) selects auto. -/
def buildAuthConfig (env : AuthEnv) (params : ConnectionParams) :
    Except SSHMCPError AuthConfig :=
  match params.auth.getD AuthStrategy.auto with
  | AuthStrategy.password =>
    if jsTruthyStr params.password then
      Except.ok (AuthConfig.password (params.password.getD ""))
    else
      Except.error (createAuthError "Password required for password authentication" none)
  | AuthStrategy.key => buildKeyAuth env params
  | AuthStrategy.agent => buildAgentAuth env
  | AuthStrategy.auto => buildAutoAuth env params

/-! ## Session manager state (src session module) -/

/-- Session identifier. The source renders ssh-TIME-COUNTER from the current
time and the incremented session counter; that rendering determines the pair,
so the identifier is embedded as the pair itself. -/
structure SessionId where
  time : Nat
  counter : Nat
deriving DecidableEq, Repr

/-- generateSessionId from the source, applied to the current time and the
already incremented counter. -/
def generateSessionId (now : Nat) (counter : Nat) : SessionId :=
  ⟨now, counter⟩

/-- SessionInfo from the source types module. -/
structure SessionInfo where
  sessionId : SessionId
  host : String
  username : String
  port : Nat
  createdAt : Nat
  expiresAt : Nat
  lastUsed : Nat
deriving DecidableEq, Repr

/-- SessionResult from the source types module. -/
structure SessionResult where
  sessionId : SessionId
  host : String
  username : String
  expiresInMs : Nat
deriving DecidableEq, Repr

/-- SSHSession from the source: the transport handles are represented by the
releaseThrows oracle, which records whether releasing them (sftp.end and
ssh.dispose) would throw. -/
structure SSHSession where
  info : SessionInfo
  connectionParams : Option ConnectionParams
  releaseThrows : Bool
deriving DecidableEq, Repr

/-- The mutable state of a SessionManager: the session table (a JavaScript
Map, embedded as an insertion ordered association list with unique keys),
the capacity, and the session counter. -/
structure ManagerState where
  sessions : List (SessionId × SSHSession)
  maxSessions : Nat
  sessionCounter : Nat
deriving DecidableEq, Repr

/-- Lookup in the session table (Map.get). -/
def getEntry : List (SessionId × SSHSession) → SessionId → Option SSHSession
  | [], _ => none
  | p :: rest, id => if p.1 = id then some p.2 else getEntry rest id

/-- Removal from the session table (Map.delete). -/
def eraseEntry : List (SessionId × SSHSession) → SessionId → List (SessionId × SSHSession)
  | [], _ => []
  | p :: rest, id => if p.1 = id then rest else p :: eraseEntry rest id

/-- Insertion or in place update in the session table (Map.set). -/
def setEntry : List (SessionId × SSHSession) → SessionId → SSHSession →
    List (SessionId × SSHSession)
  | [], id, s => [(id, s)]
  | p :: rest, id, s => if p.1 = id then (id, s) :: rest else p :: setEntry rest id s

/-- The table keys are pairwise distinct, as a JavaScript Map guarantees. -/
def nodupKeys (l : List (SessionId × SSHSession)) : Prop :=
  (l.map Prod.fst).Nodup

/-- Every identifier in the table was minted by this manager: its counter
component is at most the current session counter. -/
def wfCounters (st : ManagerState) : Prop :=
  ∀ p ∈ st.sessions, p.1.counter ≤ st.sessionCounter

/-- closeSession from the source: false when the identifier is absent;
otherwise the transport and SFTP handles are released inside a try block
whose catch only logs (the releaseThrows oracle is deliberately ignored),
and the table entry is removed. -/
def closeSession (st : ManagerState) (sessionId : SessionId) : ManagerState × Bool :=
  match getEntry st.sessions sessionId with
  | none => (st, false)
  | some _ => ({ st with sessions := eraseEntry st.sessions sessionId }, true)

/-- getSession from the source: absent when the identifier is not in the
table; when the entry is expired (now strictly past expiresAt) the session
is closed and absent is returned; on a hit lastUsed is set to now. -/
def getSession (now : Nat) (st : ManagerState) (sessionId : SessionId) :
    ManagerState × Option SSHSession :=
  match getEntry st.sessions sessionId with
  | none => (st, none)
  | some session =>
    if now > session.info.expiresAt then
      ((closeSession st sessionId).1, none)
    else
      ({ st with sessions := (setEntry st.sessions sessionId
          { session with info := { session.info with lastUsed := now } }) },
       some { session with info := { session.info with lastUsed := now } })

/-- The scan inside evictOldestSession: the running minimum starts at the
current time, and an entry only becomes the candidate when its lastUsed is
strictly below the running minimum. -/
def scanOldest (now : Nat) (l : List (SessionId × SSHSession)) : Option SessionId :=
  (l.foldl
    (fun acc p => if p.2.info.lastUsed < acc.1 then (p.2.info.lastUsed, some p.1) else acc)
    (now, (none : Option SessionId))).2

/-- evictOldestSession from the source: scan for the entry with the smallest
lastUsed strictly below the current time and close it; close nothing when no
entry qualifies. -/
def evictOldestSession (now : Nat) (st : ManagerState) : ManagerState :=
  match scanOldest now st.sessions with
  | some oldest => (closeSession st oldest).1
  | none => st

/-- Environment oracle for openSession: the auth environment, whether the
SSH connect and the SFTP connect succeed (with the failure message used by
the catch block when they do not), and whether releasing the handles of the
newly created session would throw. -/
structure OpenEnv where
  authEnv : AuthEnv
  connectOk : Bool
  connectErrMsg : String
  sftpOk : Bool
  sftpErrMsg : String
  releaseThrows : Bool

/-- The catch block of openSession: reclassify the thrown message into an
auth, timeout, connection refused, or generic connection error. -/
def classifyOpenError (msg : String) : SSHMCPError :=
  if includes msg "authentication" then
    createAuthError "SSH authentication failed"
      (some "Check your username, password, or SSH key configuration")
  else if includes msg "timeout" || includes msg "ETIMEDOUT" then
    createTimeoutError "SSH connection timeout"
      (some "Check if the host is reachable and the SSH service is running")
  else if includes msg "ECONNREFUSED" then
    createConnectionError "SSH connection refused"
      (some "Check if the SSH service is running on the target port")
  else
    createConnectionError ("Failed to establish SSH connection: " ++ msg)
      (some "Verify the host, port, and network connectivity")

/-- The steps of openSession that precede authentication: the counter is
incremented by the identifier generation, and when the table is at or above
capacity the oldest session is evicted. -/
def openPrep (now : Nat) (st : ManagerState) : ManagerState :=
  let st0 : ManagerState := { st with sessionCounter := st.sessionCounter + 1 }
  if st0.sessions.length ≥ st0.maxSessions then evictOldestSession now st0 else st0

/-- openSession from the source: generate the identifier (incrementing the
counter), evict at capacity, resolve credentials, connect the transport and
the SFTP client, then register the session with createdAt = now,
expiresAt = now + ttl and lastUsed = now, storing the original params for
reconnect. Failures inside the try block leave the prepared state and are
classified by the catch block. -/
def openSession (env : OpenEnv) (now : Nat) (params : ConnectionParams)
    (st : ManagerState) : ManagerState × Except SSHMCPError SessionResult :=
  match buildAuthConfig env.authEnv params with
  | Except.error e => (openPrep now st, Except.error (classifyOpenError e.message))
  | Except.ok _ =>
    if env.connectOk then
      if env.sftpOk then
        ({ openPrep now st with
            sessions := setEntry (openPrep now st).sessions
              (generateSessionId now (st.sessionCounter + 1))
              { info :=
                  { sessionId := generateSessionId now (st.sessionCounter + 1)
                    host := params.host
                    username := params.username
                    port := jsOrNat params.port 22
                    createdAt := now
                    expiresAt := now + jsOrNat params.ttlMs 900000
                    lastUsed := now }
                connectionParams := some params
                releaseThrows := env.releaseThrows } },
         Except.ok
           { sessionId := generateSessionId now (st.sessionCounter + 1)
             host := params.host
             username := params.username
             expiresInMs := jsOrNat params.ttlMs 900000 })
      else (openPrep now st, Except.error (classifyOpenError env.sftpErrMsg))
    else (openPrep now st, Except.error (classifyOpenError env.connectErrMsg))

/-- reconnectSession from the source: requires the entry to still be present
(no expiry check) and to carry stored connection parameters, returning null
otherwise; closes the old session and opens a fresh one with the stored
parameters. -/
def reconnectSession (env : OpenEnv) (now : Nat) (st : ManagerState)
    (sessionId : SessionId) : ManagerState × Except SSHMCPError (Option SessionResult) :=
  match getEntry st.sessions sessionId with
  | none => (st, Except.ok none)
  | some session =>
    match session.connectionParams with
    | none => (st, Except.ok none)
    | some params =>
      match openSession env now params (closeSession st sessionId).1 with
      | (st2, Except.ok result) => (st2, Except.ok (some result))
      | (st2, Except.error e) => (st2, Except.error e)

/-! ## Execution engine (src/src/process.ts) -/

/-- The loose result shape delivered by the transport execCommand call: the
exit code may be null. -/
structure RawExecResult where
  code : Option Int
  stdout : String
  stderr : String
deriving DecidableEq, Repr

/-- ExecResult from the source types module. -/
structure ExecResult where
  code : Int
  stdout : String
  stderr : String
  durationMs : Nat
deriving DecidableEq, Repr

/-- Oracle for one transport execCommand call: when it settles (milliseconds
after the call starts) and what it delivers. -/
structure TransportBehavior where
  settleAfterMs : Nat
  result : RawExecResult
deriving DecidableEq, Repr

/-- The timed part of execCommand from the source: when a truthy timeoutMs
is supplied the transport promise is raced against a timer rejecting with a
TimeoutError naming the bound; otherwise the call simply awaits the
transport. The delivered result is shaped with code || 0 fallbacks, and the
duration is the elapsed wall clock time. -/
def execCommandModel (timeoutMs : Option Nat) (tr : TransportBehavior) :
    Except SSHMCPError ExecResult :=
  if jsTruthyNat timeoutMs then
    if timeoutMs.getD 0 < tr.settleAfterMs then
      Except.error (createTimeoutError
        ("Command timed out after " ++ toString (timeoutMs.getD 0) ++ "ms")
        (some "Increase timeout or optimize the command"))
    else
      Except.ok
        { code := jsCodeOrZero tr.result.code
          stdout := tr.result.stdout
          stderr := tr.result.stderr
          durationMs := tr.settleAfterMs }
  else
    Except.ok
      { code := jsCodeOrZero tr.result.code
        stdout := tr.result.stdout
        stderr := tr.result.stderr
        durationMs := tr.settleAfterMs }

/-- ASCII lowercase of one character, embedding toLowerCase on the ASCII
texts the source compares. -/
def toLowerC (c : Char) : Char :=
  if 65 ≤ c.toNat ∧ c.toNat ≤ 90 then Char.ofNat (c.toNat + 32) else c

/-- ASCII lowercase of a string. -/
def lowerStr (s : String) : String :=
  String.mk (s.toList.map toLowerC)

/-- The stderr marker test inside execSudo: the lowercased stderr contains
password, authentication, or sorry. -/
def sudoAuthMarkers (stderr : String) : Bool :=
  includes (lowerStr stderr) "password" || includes (lowerStr stderr) "authentication"
    || includes (lowerStr stderr) "sorry"

/-- execSudo from the source, after the session has been resolved: sudo is
rejected outright on windows targets; the built command is raced against the
optional timer exactly as in execCommand; a delivered result with a code
other than 0 and truthy stderr matching the markers is reclassified as a
SudoAuthError; otherwise the shaped ExecResult is returned. -/
def execSudoModel (osInfo : OSInfo) (timeoutMs : Option Nat) (tr : TransportBehavior) :
    Except SSHMCPError ExecResult :=
  if osInfo.platform = Platform.windows then
    Except.error (createSudoError "Sudo is not supported on Windows hosts"
      (some "Use an elevated session instead of sudo commands"))
  else if jsTruthyNat timeoutMs ∧ timeoutMs.getD 0 < tr.settleAfterMs then
    Except.error (createTimeoutError
      ("Sudo command timed out after " ++ toString (timeoutMs.getD 0) ++ "ms")
      (some "Increase timeout or optimize the command"))
  else if tr.result.code ≠ some 0 ∧ tr.result.stderr ≠ "" ∧ sudoAuthMarkers tr.result.stderr then
    Except.error (createSudoError "Sudo authentication failed"
      (some "Provide a valid sudo password or ensure NOPASSWD is configured"))
  else
    Except.ok
      { code := jsCodeOrZero tr.result.code
        stdout := tr.result.stdout
        stderr := tr.result.stderr
        durationMs := tr.settleAfterMs }

/-! ## Log redaction (src logging module) -/

/-- JSON-like values handled by redactSensitiveData. -/
inductive JValue where
  | null
  | bool (b : Bool)
  | num (n : Int)
  | str (s : String)
  | arr (elems : List JValue)
  | obj (fields : List (String × JValue))

/-- JavaScript truthiness of a JValue. -/
def jsTruthyJ : JValue → Bool
  | JValue.null => false
  | JValue.bool b => b
  | JValue.num n => n ≠ 0
  | JValue.str s => s ≠ ""
  | JValue.arr _ => true
  | JValue.obj _ => true

/-- SENSITIVE_FIELDS from the source logging module, verbatim. -/
def SENSITIVE_FIELDS : List String := ["password", "privateKey", "passphrase", "sudoPassword"]

/-- REDACTED from the source logging module. -/
def REDACTED : String := "****"

mutual

/-- redactSensitiveData from the source: null and strings are returned as
is, arrays are mapped, and in objects a property whose lowercased key is
listed in SENSITIVE_FIELDS has a truthy value replaced by REDACTED while
every other property value is recursed into. -/
def redactSensitiveData : JValue → JValue
  | JValue.null => JValue.null
  | JValue.bool b => JValue.bool b
  | JValue.num n => JValue.num n
  | JValue.str s => JValue.str s
  | JValue.arr elems => JValue.arr (redactArr elems)
  | JValue.obj fields => JValue.obj (redactFields fields)

/-- Pointwise redaction of an array. -/
def redactArr : List JValue → List JValue
  | [] => []
  | v :: rest => redactSensitiveData v :: redactArr rest

/-- Pointwise redaction of object fields, as the Object.entries loop in the
source does. -/
def redactFields : List (String × JValue) → List (String × JValue)
  | [] => []
  | (k, v) :: rest =>
    (if SENSITIVE_FIELDS.contains (lowerStr k) then
      (k, if jsTruthyJ v then JValue.str REDACTED else v)
    else (k, redactSensitiveData v)) :: redactFields rest

end

/-! ## Helper lemmas about the session table -/

theorem mem_of_getEntry_some (l : List (SessionId × SSHSession)) (id : SessionId)
    (v : SSHSession) : getEntry l id = some v → (id, v) ∈ l := by
  induction l with
  | nil => intro h; simp [getEntry] at h
  | cons p rest ih =>
    obtain ⟨pid, ps⟩ := p
    intro h
    by_cases hp : pid = id
    · subst hp
      simp [getEntry] at h
      simp [h]
    · simp [getEntry, hp] at h
      exact List.mem_cons_of_mem _ (ih h)

theorem getEntry_eraseEntry_none (l : List (SessionId × SSHSession)) (e k : SessionId)
    (h : getEntry l k = none) : getEntry (eraseEntry l e) k = none := by
  induction l with
  | nil => simpa [eraseEntry] using h
  | cons p rest ih =>
    obtain ⟨pid, ps⟩ := p
    by_cases hpk : pid = k
    · simp [getEntry, hpk] at h
    · simp [getEntry, hpk] at h
      by_cases hpe : pid = e
      · simpa [eraseEntry, hpe] using h
      · simpa [eraseEntry, hpe, getEntry, hpk] using ih h

theorem getEntry_eq_none_of_not_mem (l : List (SessionId × SSHSession)) (k : SessionId)
    (h : k ∉ l.map Prod.fst) : getEntry l k = none := by
  induction l with
  | nil => simp [getEntry]
  | cons p rest ih =>
    obtain ⟨pid, ps⟩ := p
    rw [List.map_cons] at h
    have h1 : ¬ k = pid := fun he => h (List.mem_cons.mpr (Or.inl he))
    have h2 : k ∉ rest.map Prod.fst := fun hm => h (List.mem_cons.mpr (Or.inr hm))
    have h3 : ¬ pid = k := fun he => h1 he.symm
    simp [getEntry, h3, ih h2]

theorem getEntry_eraseEntry_self (l : List (SessionId × SSHSession)) (id : SessionId)
    (h : nodupKeys l) : getEntry (eraseEntry l id) id = none := by
  induction l with
  | nil => simp [eraseEntry, getEntry]
  | cons p rest ih =>
    obtain ⟨pid, ps⟩ := p
    have hrest : nodupKeys rest := (List.nodup_cons.mp h).2
    by_cases hp : pid = id
    · subst hp
      have hnotmem : pid ∉ rest.map Prod.fst := (List.nodup_cons.mp h).1
      simpa [eraseEntry] using getEntry_eq_none_of_not_mem rest pid hnotmem
    · simp [eraseEntry, hp, getEntry, hp, ih hrest]

theorem mem_eraseEntry_sub (l : List (SessionId × SSHSession)) (e : SessionId)
    (p : SessionId × SSHSession) (h : p ∈ eraseEntry l e) : p ∈ l := by
  induction l with
  | nil => simp [eraseEntry] at h
  | cons q rest ih =>
    obtain ⟨qid, qs⟩ := q
    by_cases hq : qid = e
    · simp [eraseEntry, hq] at h
      exact List.mem_cons_of_mem _ h
    · simp [eraseEntry, hq] at h
      rcases h with h | h
      · simp [h]
      · exact List.mem_cons_of_mem _ (ih h)

theorem getEntry_setEntry_self (l : List (SessionId × SSHSession)) (id : SessionId)
    (s : SSHSession) : getEntry (setEntry l id s) id = some s := by
  induction l with
  | nil => simp [setEntry, getEntry]
  | cons p rest ih =>
    obtain ⟨pid, ps⟩ := p
    by_cases hp : pid = id
    · simp [setEntry, hp, getEntry]
    · simp [setEntry, hp, getEntry, ih]

theorem getEntry_setEntry_ne (l : List (SessionId × SSHSession)) (id k : SessionId)
    (s : SSHSession) (h : k ≠ id) : getEntry (setEntry l id s) k = getEntry l k := by
  have hik : id ≠ k := Ne.symm h
  induction l with
  | nil => simp [setEntry, getEntry, hik]
  | cons p rest ih =>
    obtain ⟨pid, ps⟩ := p
    by_cases hp : pid = id
    · subst hp
      simp [setEntry, getEntry, hik]
    · simp [setEntry, hp, getEntry, ih]

theorem closeSession_found (st : ManagerState) (id : SessionId) (s : SSHSession)
    (h : getEntry st.sessions id = some s) :
    closeSession st id = ({ st with sessions := eraseEntry st.sessions id }, true) := by
  simp [closeSession, h]

theorem closeSession_counter (st : ManagerState) (id : SessionId) :
    (closeSession st id).1.sessionCounter = st.sessionCounter ∧
    (closeSession st id).1.maxSessions = st.maxSessions := by
  unfold closeSession
  cases getEntry st.sessions id <;> simp

theorem evict_entry_none (now : Nat) (st : ManagerState) (k : SessionId)
    (h : getEntry st.sessions k = none) :
    getEntry (evictOldestSession now st).sessions k = none := by
  unfold evictOldestSession
  cases hs : scanOldest now st.sessions with
  | none => simpa using h
  | some oldest =>
    unfold closeSession
    cases hg : getEntry st.sessions oldest with
    | none => simpa [hg] using h
    | some v => simpa [hg] using getEntry_eraseEntry_none st.sessions oldest k h

theorem evict_counter (now : Nat) (st : ManagerState) :
    (evictOldestSession now st).sessionCounter = st.sessionCounter ∧
    (evictOldestSession now st).maxSessions = st.maxSessions := by
  unfold evictOldestSession
  cases scanOldest now st.sessions with
  | none => simp
  | some oldest => exact closeSession_counter st oldest

theorem openPrep_counter (now : Nat) (st : ManagerState) :
    (openPrep now st).sessionCounter = st.sessionCounter + 1 := by
  unfold openPrep
  by_cases h : st.sessions.length ≥ st.maxSessions
  · simpa [h] using (evict_counter now { st with sessionCounter := st.sessionCounter + 1 }).1
  · simp [h]

theorem openPrep_entry_none (now : Nat) (st : ManagerState) (k : SessionId)
    (h : getEntry st.sessions k = none) :
    getEntry (openPrep now st).sessions k = none := by
  unfold openPrep
  by_cases hc : st.sessions.length ≥ st.maxSessions
  · simpa [hc] using evict_entry_none now { st with sessionCounter := st.sessionCounter + 1 } k h
  · simpa [hc] using h

theorem openSession_ok_inv (env : OpenEnv) (now : Nat) (params : ConnectionParams)
    (st st2 : ManagerState) (r : SessionResult)
    (h : openSession env now params st = (st2, Except.ok r)) :
    r = { sessionId := ⟨now, st.sessionCounter + 1⟩
          host := params.host
          username := params.username
          expiresInMs := jsOrNat params.ttlMs 900000 } ∧
    st2.sessions = setEntry (openPrep now st).sessions ⟨now, st.sessionCounter + 1⟩
      { info :=
          { sessionId := ⟨now, st.sessionCounter + 1⟩
            host := params.host
            username := params.username
            port := jsOrNat params.port 22
            createdAt := now
            expiresAt := now + jsOrNat params.ttlMs 900000
            lastUsed := now }
        connectionParams := some params
        releaseThrows := env.releaseThrows } := by
  unfold openSession at h
  cases ha : buildAuthConfig env.authEnv params with
  | error e => rw [ha] at h; simp at h
  | ok cfg =>
    rw [ha] at h
    by_cases hc : env.connectOk
    · by_cases hs : env.sftpOk
      · simp [hc, hs, generateSessionId] at h
        obtain ⟨h1, h2⟩ := h
        constructor
        · exact h2.symm
        · rw [← h1]
      · simp [hc, hs] at h
    · simp [hc] at h

/-! ## Claim theorems -/

/-- C2: getSession returns absent exactly when the identifier is not in the
table or the current time is strictly past the expiry timestamp; in the
expired case the entry is removed from the table as a side effect of the
lookup; on a hit the returned session has lastUsed set to now and every
other field unchanged, and only that entry of the table is updated. -/
theorem C2_getSession_contract :
  (∀ (now : Nat) (st : ManagerState) (id : SessionId),
    getEntry st.sessions id = none → getSession now st id = (st, none)) ∧
  (∀ (now : Nat) (st : ManagerState) (id : SessionId) (s : SSHSession),
    getEntry st.sessions id = some s → now > s.info.expiresAt →
    getSession now st id = ({ st with sessions := eraseEntry st.sessions id }, none)) ∧
  (∀ (now : Nat) (st : ManagerState) (id : SessionId) (s : SSHSession),
    getEntry st.sessions id = some s → ¬ now > s.info.expiresAt →
    getSession now st id =
      ({ st with sessions := (setEntry st.sessions id
          { s with info := { s.info with lastUsed := now } }) },
       some { s with info := { s.info with lastUsed := now } })) := by
  refine ⟨?_, ?_, ?_⟩
  · intro now st id h
    simp [getSession, h]
  · intro now st id s h hexp
    simp [getSession, h, hexp, closeSession]
  · intro now st id s h hexp
    simp [getSession, h, hexp]

/-- Concrete session used by witnesses. -/
def wSession : SSHSession := ⟨⟨⟨5, 1⟩, "h", "u", 22, 5, 1000, 5⟩, none, false⟩

/-- Concrete manager state used by witnesses. -/
def wState : ManagerState := ⟨[(⟨5, 1⟩, wSession)], 20, 1⟩

/-- Witness for C2: a concrete unexpired hit bumps lastUsed to now. -/
theorem C2_getSession_witness :
  getEntry wState.sessions ⟨5, 1⟩ = some wSession ∧
  ¬ (300 : Nat) > wSession.info.expiresAt ∧
  getSession 300 wState ⟨5, 1⟩ =
    ({ wState with sessions := (setEntry wState.sessions ⟨5, 1⟩
        { wSession with info := { wSession.info with lastUsed := 300 } }) },
     some { wSession with info := { wSession.info with lastUsed := 300 } }) :=
  ⟨by decide, by decide,
   C2_getSession_contract.2.2 300 wState ⟨5, 1⟩ wSession (by decide) (by decide)⟩

/-- C9: closeSession returns false and changes nothing when the identifier
is absent; when present it returns true and removes the entry, whatever the
release behavior of the handles (the releaseThrows field of the stored
session is arbitrary and the outcome does not depend on it); a second close
of the same identifier therefore returns false. -/
theorem C9_closeSession_contract :
  (∀ (st : ManagerState) (id : SessionId),
    getEntry st.sessions id = none → closeSession st id = (st, false)) ∧
  (∀ (st : ManagerState) (id : SessionId) (s : SSHSession),
    getEntry st.sessions id = some s →
    closeSession st id = ({ st with sessions := eraseEntry st.sessions id }, true)) ∧
  (∀ (st : ManagerState) (id : SessionId) (s : SSHSession),
    nodupKeys st.sessions → getEntry st.sessions id = some s →
    (closeSession (closeSession st id).1 id).2 = false) := by
  refine ⟨?_, ?_, ?_⟩
  · intro st id h
    simp [closeSession, h]
  · intro st id s h
    simp [closeSession, h]
  · intro st id s hnd h
    rw [closeSession_found st id s h]
    simp [closeSession, getEntry_eraseEntry_self st.sessions id hnd]

/-- Concrete session whose handle release throws, used by the C9 witness. -/
def wSessionThrows : SSHSession := ⟨⟨⟨7, 1⟩, "h", "u", 22, 7, 1000, 7⟩, none, true⟩

/-- Concrete manager state used by the C9 witness. -/
def wStateThrows : ManagerState := ⟨[(⟨7, 1⟩, wSessionThrows)], 20, 1⟩

/-- Witness for C9: closing a present session whose release throws still
removes it and returns true, and a second close returns false. -/
theorem C9_closeSession_witness :
  getEntry wStateThrows.sessions ⟨7, 1⟩ = some wSessionThrows ∧
  closeSession wStateThrows ⟨7, 1⟩ =
    ({ wStateThrows with sessions := eraseEntry wStateThrows.sessions ⟨7, 1⟩ }, true) ∧
  nodupKeys wStateThrows.sessions ∧
  (closeSession (closeSession wStateThrows ⟨7, 1⟩).1 ⟨7, 1⟩).2 = false :=
  ⟨by decide,
   C9_closeSession_contract.2.1 wStateThrows ⟨7, 1⟩ wSessionThrows (by decide),
   by unfold nodupKeys; decide,
   C9_closeSession_contract.2.2 wStateThrows ⟨7, 1⟩ wSessionThrows
     (by unfold nodupKeys; decide) (by decide)⟩

/-- C6: with a truthy (supplied and nonzero) timeout the transport call is
raced against a timer; when the timer fires strictly before the transport
settles the call fails with a TimeoutError naming the bound in
milliseconds; when the transport settles first the shaped result is
returned; with no timeout no timer is raced and the call waits for the
transport to settle. A supplied timeout of 0 is falsy in the source guard
and behaves like an absent timeout. -/
theorem C6_exec_timeout_contract :
  (∀ (ms : Nat) (tr : TransportBehavior), ms ≠ 0 → ms < tr.settleAfterMs →
    execCommandModel (some ms) tr =
      Except.error (createTimeoutError ("Command timed out after " ++ toString ms ++ "ms")
        (some "Increase timeout or optimize the command"))) ∧
  (∀ (ms : Nat) (tr : TransportBehavior), ms ≠ 0 → ¬ ms < tr.settleAfterMs →
    execCommandModel (some ms) tr =
      Except.ok
        { code := jsCodeOrZero tr.result.code
          stdout := tr.result.stdout
          stderr := tr.result.stderr
          durationMs := tr.settleAfterMs }) ∧
  (∀ tr : TransportBehavior,
    execCommandModel none tr =
      Except.ok
        { code := jsCodeOrZero tr.result.code
          stdout := tr.result.stdout
          stderr := tr.result.stderr
          durationMs := tr.settleAfterMs }) := by
  refine ⟨?_, ?_, ?_⟩
  · intro ms tr h1 h2
    simp [execCommandModel, jsTruthyNat, h1, h2]
  · intro ms tr h1 h2
    simp [execCommandModel, jsTruthyNat, h1, h2]
  · intro tr
    simp [execCommandModel, jsTruthyNat]

/-- Witness for C6: a 1000 ms bound against a transport settling at
10000 ms fails with the TimeoutError naming 1000 ms. -/
theorem C6_exec_timeout_witness :
  (1000 : Nat) ≠ 0 ∧ (1000 : Nat) < 10000 ∧
  execCommandModel (some 1000) ⟨10000, ⟨some 0, "", ""⟩⟩ =
    Except.error (createTimeoutError ("Command timed out after " ++ toString (1000 : Nat) ++ "ms")
      (some "Increase timeout or optimize the command")) :=
  ⟨by decide, by decide,
   C6_exec_timeout_contract.1 1000 ⟨10000, ⟨some 0, "", ""⟩⟩ (by decide) (by decide)⟩

/-- C7: a delivered sudo result with a nonzero exit code whose stderr
matches the password, authentication, or sorry markers (case
insensitively) is reclassified as a SudoAuthError carrying the hint to
supply a valid password or configure passwordless sudo; a nonzero exit
without the markers is returned as an ordinary ExecResult. -/
theorem C7_sudo_classification_contract :
  (∀ (os : OSInfo) (tr : TransportBehavior) (c : Int),
    os.platform ≠ Platform.windows → tr.result.code = some c → c ≠ 0 →
    sudoAuthMarkers tr.result.stderr = true →
    execSudoModel os none tr =
      Except.error (createSudoError "Sudo authentication failed"
        (some "Provide a valid sudo password or ensure NOPASSWD is configured"))) ∧
  (∀ (os : OSInfo) (tr : TransportBehavior) (c : Int),
    os.platform ≠ Platform.windows → tr.result.code = some c → c ≠ 0 →
    sudoAuthMarkers tr.result.stderr = false →
    execSudoModel os none tr =
      Except.ok
        { code := c
          stdout := tr.result.stdout
          stderr := tr.result.stderr
          durationMs := tr.settleAfterMs }) := by
  constructor
  · intro os tr c hos hc hc0 hm
    have hne : tr.result.stderr ≠ "" := by
      intro he
      rw [he] at hm
      exact absurd hm (by decide)
    have hcz : tr.result.code ≠ some 0 := by
      rw [hc]
      simp [hc0]
    simp [execSudoModel, hos, jsTruthyNat, hcz, hne, hm]
  · intro os tr c hos hc hc0 hm
    simp [execSudoModel, hos, jsTruthyNat, hm, hc, jsCodeOrZero, hc0]

/-- Concrete OS descriptor used by witnesses. -/
def wOSInfo : OSInfo :=
  ⟨Platform.linux, "ubuntu", "22.04", "x86_64", "bash", "apt", "systemd",
   some ShellType.bash, none⟩

/-- Concrete transport outcome of a failed sudo attempt, used by the C7
witness. -/
def wSudoFail : TransportBehavior := ⟨42, ⟨some 1, "", "Sorry, try again"⟩⟩

/-- Witness for C7: exit code 1 with stderr Sorry, try again yields the
SudoAuthError. -/
theorem C7_sudo_classification_witness :
  wOSInfo.platform ≠ Platform.windows ∧
  wSudoFail.result.code = some 1 ∧ (1 : Int) ≠ 0 ∧
  sudoAuthMarkers wSudoFail.result.stderr = true ∧
  execSudoModel wOSInfo none wSudoFail =
    Except.error (createSudoError "Sudo authentication failed"
      (some "Provide a valid sudo password or ensure NOPASSWD is configured")) :=
  ⟨by decide, by decide, by decide, by decide,
   C7_sudo_classification_contract.1 wOSInfo wSudoFail 1 (by decide) (by decide)
     (by decide) (by decide)⟩

/-- C5: building a sudo command fails immediately on a windows descriptor
(both in the builder and in execSudo); otherwise with a truthy password the
line is echo quoted-password piped into sudo -S -n command, and with no
password it is sudo -n command, wrapped once by the POSIX builder, so sudo
never prompts interactively. -/
theorem C5_buildSudoCommand_contract :
  (∀ (cmd : String) (os : OSInfo) (pw cwd : Option String),
    os.platform = Platform.windows →
    buildSudoCommand cmd os pw cwd = Except.error "Sudo is not supported on Windows hosts") ∧
  (∀ (cmd p : String) (os : OSInfo), os.platform ≠ Platform.windows → p ≠ "" →
    buildSudoCommand cmd os (some p) none =
      Except.ok (buildPosixCommand ("echo " ++ shellQuote p ++ " | sudo -S -n " ++ cmd)
        none none (if os.defaultShell = some ShellType.bash then "bash" else "sh"))) ∧
  (∀ (cmd : String) (os : OSInfo), os.platform ≠ Platform.windows →
    buildSudoCommand cmd os none none =
      Except.ok (buildPosixCommand ("sudo -n " ++ cmd)
        none none (if os.defaultShell = some ShellType.bash then "bash" else "sh"))) ∧
  (∀ (os : OSInfo) (tmo : Option Nat) (tr : TransportBehavior),
    os.platform = Platform.windows →
    execSudoModel os tmo tr =
      Except.error (createSudoError "Sudo is not supported on Windows hosts"
        (some "Use an elevated session instead of sudo commands"))) := by
  refine ⟨?_, ?_, ?_, ?_⟩
  · intro cmd os pw cwd h
    simp [buildSudoCommand, h]
  · intro cmd p os h hp
    simp [buildSudoCommand, h, jsTruthyStr, hp]
  · intro cmd os h
    simp [buildSudoCommand, h, jsTruthyStr]
  · intro os tmo tr h
    simp [execSudoModel, h]

/-- Witness for C5: a concrete password yields the echo piped sudo -S -n
line on a linux descriptor. -/
theorem C5_buildSudoCommand_witness :
  wOSInfo.platform ≠ Platform.windows ∧ ("pw" : String) ≠ "" ∧
  buildSudoCommand "whoami" wOSInfo (some "pw") none =
    Except.ok (buildPosixCommand ("echo " ++ shellQuote "pw" ++ " | sudo -S -n " ++ "whoami")
      none none (if wOSInfo.defaultShell = some ShellType.bash then "bash" else "sh")) :=
  ⟨by decide, by decide,
   C5_buildSudoCommand_contract.2.1 "whoami" "pw" wOSInfo (by decide) (by decide)⟩

/-- C3: under the auto strategy (selected explicitly or by absence), a
truthy supplied password is returned as the password credential with no
dependence on the key or agent environment; otherwise key resolution is
attempted (inline key first, then explicit path, then discovery) and agent
resolution only when key resolution failed; when both fail the resolver
fails with the AuthError naming no suitable method. -/
theorem C3_autoAuth_contract :
  (∀ (env : AuthEnv) (params : ConnectionParams) (pw : String),
    (params.auth = none ∨ params.auth = some AuthStrategy.auto) →
    params.password = some pw → pw ≠ "" →
    buildAuthConfig env params = Except.ok (AuthConfig.password pw)) ∧
  (∀ (env : AuthEnv) (params : ConnectionParams) (cfg : AuthConfig),
    (params.auth = none ∨ params.auth = some AuthStrategy.auto) →
    jsTruthyStr params.password = false →
    buildKeyAuth env params = Except.ok cfg →
    buildAuthConfig env params = Except.ok cfg) ∧
  (∀ (env : AuthEnv) (params : ConnectionParams) (e1 : SSHMCPError) (cfg : AuthConfig),
    (params.auth = none ∨ params.auth = some AuthStrategy.auto) →
    jsTruthyStr params.password = false →
    buildKeyAuth env params = Except.error e1 →
    buildAgentAuth env = Except.ok cfg →
    buildAuthConfig env params = Except.ok cfg) ∧
  (∀ (env : AuthEnv) (params : ConnectionParams) (e1 e2 : SSHMCPError),
    (params.auth = none ∨ params.auth = some AuthStrategy.auto) →
    jsTruthyStr params.password = false →
    buildKeyAuth env params = Except.error e1 →
    buildAgentAuth env = Except.error e2 →
    buildAuthConfig env params =
      Except.error (createAuthError "No suitable authentication method found"
        (some "Provide a password, private key, or ensure SSH agent is running"))) ∧
  (∀ (env : AuthEnv) (params : ConnectionParams) (k : String),
    params.privateKey = some k → k ≠ "" →
    buildKeyAuth env params = Except.ok (AuthConfig.privateKey k params.passphrase)) ∧
  (∀ (env : AuthEnv) (params : ConnectionParams) (p : String),
    jsTruthyStr params.privateKey = false →
    params.privateKeyPath = some p → p ≠ "" →
    buildKeyAuth env params = loadPrivateKeyFromPath env p params.passphrase) ∧
  (∀ (env : AuthEnv) (params : ConnectionParams),
    jsTruthyStr params.privateKey = false →
    jsTruthyStr params.privateKeyPath = false →
    buildKeyAuth env params = discoverPrivateKeys env params.passphrase) := by
  have hauto : ∀ params : ConnectionParams,
      (params.auth = none ∨ params.auth = some AuthStrategy.auto) →
      params.auth.getD AuthStrategy.auto = AuthStrategy.auto := by
    intro params h
    rcases h with h | h <;> simp [h]
  refine ⟨?_, ?_, ?_, ?_, ?_, ?_, ?_⟩
  · intro env params pw hA hpw hne
    simp [buildAuthConfig, hauto params hA, buildAutoAuth, jsTruthyStr, hpw, hne]
  · intro env params cfg hA hpw hk
    simp [buildAuthConfig, hauto params hA, buildAutoAuth, hpw, hk]
  · intro env params e1 cfg hA hpw hk hag
    simp [buildAuthConfig, hauto params hA, buildAutoAuth, hpw, hk, hag]
  · intro env params e1 e2 hA hpw hk hag
    simp [buildAuthConfig, hauto params hA, buildAutoAuth, hpw, hk, hag]
  · intro env params k hk hkne
    simp [buildKeyAuth, jsTruthyStr, hk, hkne]
  · intro env params p hpk hpath hpne
    have hp : jsTruthyStr (some p) = true := by simp [jsTruthyStr, hpne]
    simp [buildKeyAuth, hpk, hpath, hp]
  · intro env params hpk hpath
    simp [buildKeyAuth, hpk, hpath]

/-- Concrete auth environment with no readable keys and no agent socket,
used by witnesses. -/
def emptyAuthEnv : AuthEnv := ⟨fun _ => false, fun _ => "", none, "/root", none⟩

/-- Concrete connection parameters carrying only a password, used by
witnesses. -/
def paramsPw : ConnectionParams :=
  ⟨"h", "u", none, none, some "pw", none, none, none, none, none, none, none, none⟩

/-- Witness for C3: with a password supplied under the default strategy the
resolver returns the password credential. -/
theorem C3_autoAuth_witness :
  (paramsPw.auth = none ∨ paramsPw.auth = some AuthStrategy.auto) ∧
  paramsPw.password = some "pw" ∧ ("pw" : String) ≠ "" ∧
  buildAuthConfig emptyAuthEnv paramsPw = Except.ok (AuthConfig.password "pw") :=
  ⟨Or.inl (by decide), by decide, by decide,
   C3_autoAuth_contract.1 emptyAuthEnv paramsPw "pw" (Or.inl (by decide))
     (by decide) (by decide)⟩

/-- C4 counterexample: the claim says each embedded single quote is
replaced by the four character sequence that closes the quote, inserts a
backslash escaped literal quote, and reopens the quote; on the input x
quote y the code instead produces the five character close, double-quoted
quote, reopen sequence, so the output has nine characters, not the eight
the four character reading predicts. -/
theorem C4_quote_counterexample :
  shellQuote (String.mk ['x', squo, 'y']) =
    String.mk [squo, 'x', squo, dquo, squo, dquo, squo, 'y', squo] ∧
  shellQuote (String.mk ['x', squo, 'y']) ≠
    String.mk [squo, 'x', squo, bslash, squo, squo, 'y', squo] ∧
  (String.mk [squo, bslash, squo, squo]).length = 4 ∧
  (shellQuote (String.mk ['x', squo, 'y'])).length = 9 :=
  ⟨by decide, by decide, by decide, by decide⟩

/-- C4 amended: shellQuote wraps in single quotes and replaces each
embedded single quote by the five character sequence that closes the quote,
inserts a double-quoted literal quote, and reopens the quote, performing no
other escaping (a value without quotes passes through unchanged and the
output length is the input length plus two plus four per embedded quote);
the built POSIX invocation is exactly the optional cd prefix, the env
assignment prefixes, and the single outer wrap shell -lc quoted-line, with
bash selected when the detected default shell is bash and sh otherwise. -/
theorem C4_quote_amended :
  (∀ v : String, squo ∉ v.toList → shellQuote v = String.mk ([squo] ++ v.toList ++ [squo])) ∧
  (∀ v : String, (shellQuote v).length = v.length + 2 + 4 * countQuote v.toList) ∧
  (∀ cmd shellName : String,
    buildPosixCommand cmd none none shellName = shellName ++ " -lc " ++ shellQuote cmd) ∧
  (∀ (cmd c shellName : String) (env : List (String × String)), c ≠ "" → env ≠ [] →
    buildPosixCommand cmd (some c) (some env) shellName =
      shellName ++ " -lc " ++ shellQuote ("cd " ++ shellQuote c ++ " && " ++
        String.intercalate " " (env.map (fun kv => kv.1 ++ "=" ++ shellQuote kv.2))
        ++ " " ++ cmd)) ∧
  (∀ (cmd : String) (os : OSInfo) (cwd : Option String)
      (env : Option (List (String × String))),
    os.platform ≠ Platform.windows →
    buildRemoteCommand cmd os cwd env = buildPosixCommand cmd cwd env
      (if os.defaultShell = some ShellType.bash then "bash" else "sh")) := by
  refine ⟨?_, ?_, ?_, ?_, ?_⟩
  · intro v hv
    have h3 : replaceQuote v.data = v.data := replaceQuote_of_no_sq v.toList hv
    simp [shellQuote, h3]
  · intro v
    have h1 : (shellQuote v).length = ([squo] ++ replaceQuote v.toList ++ [squo]).length := rfl
    have h2 : v.length = v.toList.length := rfl
    rw [h1, h2]
    simp [List.length_append, replaceQuote_length]
    omega
  · intro cmd shellName
    simp [buildPosixCommand, jsTruthyStr]
  · intro cmd c shellName env hc henv
    have hlen : env.length > 0 := List.length_pos.mpr henv
    simp [buildPosixCommand, jsTruthyStr, hc, hlen, String.append_assoc]
  · intro cmd os cwd env h
    simp [buildRemoteCommand, h]

/-- Witness for C4 amended: a concrete cwd and env assignment produce the
cd prefixed, env prefixed, once wrapped invocation. -/
theorem C4_quote_amended_witness :
  ("/tmp" : String) ≠ "" ∧ ([("K", "v")] : List (String × String)) ≠ [] ∧
  buildPosixCommand "echo hi" (some "/tmp") (some [("K", "v")]) "sh" =
    "sh" ++ " -lc " ++ shellQuote ("cd " ++ shellQuote "/tmp" ++ " && " ++
      String.intercalate " " ([("K", "v")].map (fun kv => kv.1 ++ "=" ++ shellQuote kv.2))
      ++ " " ++ "echo hi") :=
  ⟨by decide, by decide,
   C4_quote_amended.2.2.2.1 "echo hi" "/tmp" "sh" [("K", "v")] (by decide) (by decide)⟩

/-- Open environment with a password-auth success path, used by the C1
evaluation. -/
def envC1 : OpenEnv := ⟨⟨fun _ => false, fun _ => "", none, "/root", none⟩, true, "", true, "", false⟩

/-- Connection parameters with a password, used by the C1 evaluation. -/
def paramsC1 : ConnectionParams :=
  ⟨"h", "u", none, none, some "p", none, none, none, none, none, none, none, none⟩

/-- A capacity one manager holding one session whose lastUsed equals the
current time 200, used by the C1 evaluation. -/
def stC1 : ManagerState :=
  ⟨[(⟨100, 1⟩, ⟨⟨⟨100, 1⟩, "h", "u", 22, 100, 900100, 200⟩, some paramsC1, false⟩)], 1, 1⟩

/-- C1 evaluation: at capacity 1 with the single entry lastUsed at the
current time, the eviction scan (whose running minimum starts at the
current time and admits only strictly smaller lastUsed values) selects
nothing, openSession succeeds, and the table is left with 2 entries,
exceeding the capacity of 1. -/
theorem C1_capacity_exceeded :
  stC1.maxSessions = 1 ∧ stC1.sessions.length = 1 ∧
  evictOldestSession 200 { stC1 with sessionCounter := 2 } = { stC1 with sessionCounter := 2 } ∧
  (openSession envC1 200 paramsC1 stC1).1.sessions.length = 2 ∧
  (openSession envC1 200 paramsC1 stC1).2 =
    Except.ok { sessionId := ⟨200, 2⟩, host := "h", username := "u", expiresInMs := 900000 } :=
  ⟨by decide, by decide, by decide, by decide, rfl⟩

/-- C8: when reconnectSession succeeds, the old identifier is gone (a
subsequent getSession on it at any time returns absent), the returned
result carries a fresh identifier different from the old one, and the new
identifier is registered with the stored connection parameters, matching
their host and username; a missing identifier or missing stored parameters
yields the null result with the state unchanged. -/
theorem C8_reconnect_contract :
  (∀ (env : OpenEnv) (now : Nat) (st : ManagerState) (id : SessionId)
      (st2 : ManagerState) (r : SessionResult),
    wfCounters st → nodupKeys st.sessions →
    reconnectSession env now st id = (st2, Except.ok (some r)) →
    (∀ later : Nat, (getSession later st2 id).2 = none) ∧
    r.sessionId ≠ id ∧
    (∃ s params, getEntry st.sessions id = some s ∧ s.connectionParams = some params ∧
      r.host = params.host ∧ r.username = params.username ∧
      (∃ e, getEntry st2.sessions r.sessionId = some e ∧
        e.info.host = params.host ∧ e.info.username = params.username ∧
        e.connectionParams = some params))) ∧
  (∀ (env : OpenEnv) (now : Nat) (st : ManagerState) (id : SessionId),
    getEntry st.sessions id = none →
    reconnectSession env now st id = (st, Except.ok none)) ∧
  (∀ (env : OpenEnv) (now : Nat) (st : ManagerState) (id : SessionId) (s : SSHSession),
    getEntry st.sessions id = some s → s.connectionParams = none →
    reconnectSession env now st id = (st, Except.ok none)) := by
  refine ⟨?_, ?_, ?_⟩
  · intro env now st id st2 r hwf hnd heq
    cases hg : getEntry st.sessions id with
    | none =>
      have hstep : reconnectSession env now st id = (st, Except.ok none) := by
        simp [reconnectSession, hg]
      rw [hstep] at heq
      simp at heq
    | some s =>
      cases hcp : s.connectionParams with
      | none =>
        have hstep : reconnectSession env now st id = (st, Except.ok none) := by
          simp [reconnectSession, hg, hcp]
        rw [hstep] at heq
        simp at heq
      | some params =>
        have hstep : reconnectSession env now st id =
            match openSession env now params { st with sessions := eraseEntry st.sessions id } with
            | (st2x, Except.ok result) => (st2x, Except.ok (some result))
            | (st2x, Except.error e) => (st2x, Except.error e) := by
          simp [reconnectSession, hg, hcp, closeSession_found st id s hg]
        rw [hstep] at heq
        cases ho : openSession env now params { st with sessions := eraseEntry st.sessions id } with
        | mk st2x res =>
          rw [ho] at heq
          cases res with
          | error e => simp at heq
          | ok result =>
            simp at heq
            obtain ⟨hst2, hres⟩ := heq
            subst hst2
            subst hres
            obtain ⟨hr, hsess⟩ := openSession_ok_inv env now params
              { st with sessions := eraseEntry st.sessions id } st2x result ho
            dsimp only at hr hsess
            have hctr : id.counter ≤ st.sessionCounter :=
              hwf (id, s) (mem_of_getEntry_some st.sessions id s hg)
            have hne : id ≠ (⟨now, st.sessionCounter + 1⟩ : SessionId) := by
              intro hid
              have : id.counter = st.sessionCounter + 1 := by rw [hid]
              omega
            have habsent : getEntry st2x.sessions id = none := by
              rw [hsess, getEntry_setEntry_ne _ _ _ _ hne]
              exact openPrep_entry_none now _ id
                (getEntry_eraseEntry_self st.sessions id hnd)
            refine ⟨?_, ?_, ?_⟩
            · intro later
              simp [getSession, habsent]
            · rw [hr]
              exact fun hx => hne hx.symm
            · refine ⟨s, params, rfl, hcp, by rw [hr], by rw [hr], ?_⟩
              have hget2 : getEntry st2x.sessions result.sessionId = some
                  { info :=
                      { sessionId := ⟨now, st.sessionCounter + 1⟩
                        host := params.host
                        username := params.username
                        port := jsOrNat params.port 22
                        createdAt := now
                        expiresAt := now + jsOrNat params.ttlMs 900000
                        lastUsed := now }
                    connectionParams := some params
                    releaseThrows := env.releaseThrows } := by
                rw [hsess, hr]
                exact getEntry_setEntry_self _ _ _
              exact ⟨_, hget2, rfl, rfl, rfl⟩
  · intro env now st id h
    simp [reconnectSession, h]
  · intro env now st id s h hcp
    simp [reconnectSession, h, hcp]

/-- Open environment used by the C8 witness. -/
def envW : OpenEnv := ⟨⟨fun _ => false, fun _ => "", none, "/root", none⟩, true, "", true, "", false⟩

/-- Stored connection parameters used by the C8 witness. -/
def paramsW : ConnectionParams :=
  ⟨"h", "u", none, none, some "p", none, none, none, none, none, none, none, none⟩

/-- Manager state holding the session to reconnect, used by the C8 witness. -/
def stW8 : ManagerState :=
  ⟨[(⟨10, 1⟩, ⟨⟨⟨10, 1⟩, "h", "u", 22, 10, 900010, 10⟩, some paramsW, false⟩)], 20, 1⟩

/-- Manager state after the reconnect of the C8 witness. -/
def stW8after : ManagerState :=
  ⟨[(⟨50, 2⟩, ⟨⟨⟨50, 2⟩, "h", "u", 22, 50, 900050, 50⟩, some paramsW, false⟩)], 20, 2⟩

/-- Session result returned by the reconnect of the C8 witness. -/
def rW8 : SessionResult := ⟨⟨50, 2⟩, "h", "u", 900000⟩

/-- Witness for C8: reconnecting the concrete session yields a fresh
identifier and the old identifier becomes absent. -/
theorem C8_reconnect_witness :
  wfCounters stW8 ∧ nodupKeys stW8.sessions ∧
  rW8.sessionId ≠ (⟨10, 1⟩ : SessionId) ∧
  (getSession 60 stW8after ⟨10, 1⟩).2 = none := by
  have heq : reconnectSession envW 50 stW8 ⟨10, 1⟩ = (stW8after, Except.ok (some rW8)) := rfl
  have h := C8_reconnect_contract.1 envW 50 stW8 ⟨10, 1⟩ stW8after rW8
    (by unfold wfCounters; decide) (by unfold nodupKeys; decide) heq
  exact ⟨by unfold wfCounters; decide, by unfold nodupKeys; decide, h.2.1, h.1 60⟩

/-- C10 evaluation: the source compares the lowercased key against the
SENSITIVE_FIELDS list, whose entries privateKey and sudoPassword contain
uppercase letters and therefore never match a lowercased key; redacting an
object with truthy privateKey and sudoPassword values leaves them intact,
while password is replaced by the four asterisks. -/
theorem C10_privateKey_not_redacted :
  redactSensitiveData (JValue.obj [("privateKey", JValue.str "KEYDATA"),
      ("sudoPassword", JValue.str "SUDOPW"), ("password", JValue.str "p")]) =
    JValue.obj [("privateKey", JValue.str "KEYDATA"),
      ("sudoPassword", JValue.str "SUDOPW"), ("password", JValue.str "****")] := by
  have h1 : SENSITIVE_FIELDS.contains (lowerStr "privateKey") = false := by decide
  have h2 : SENSITIVE_FIELDS.contains (lowerStr "sudoPassword") = false := by decide
  have h3 : SENSITIVE_FIELDS.contains (lowerStr "password") = true := by decide
  have h4 : jsTruthyJ (JValue.str "p") = true := by decide
  simp [redactSensitiveData, redactFields, h1, h2, h3, h4, REDACTED]
  exact ⟨by decide, by decide, by decide⟩

/-! ## The table invariants are preserved by every operation

The hypotheses of the reconnect theorem (pairwise distinct keys, as a
JavaScript Map guarantees, and counters bounded by the session counter) are
invariants of every reachable manager state: the lemmas below show each
operation preserves them. -/

theorem mem_setEntry_sub (l : List (SessionId × SSHSession)) (id : SessionId)
    (s : SSHSession) (p : SessionId × SSHSession) (h : p ∈ setEntry l id s) :
    p ∈ l ∨ p = (id, s) := by
  induction l with
  | nil =>
    simp [setEntry] at h
    exact Or.inr h
  | cons q rest ih =>
    obtain ⟨qid, qs⟩ := q
    by_cases hq : qid = id
    · simp [setEntry, hq] at h
      rcases h with h | h
      · exact Or.inr (by simp [h])
      · exact Or.inl (List.mem_cons_of_mem _ h)
    · simp [setEntry, hq] at h
      rcases h with h | h
      · exact Or.inl (by simp [h])
      · rcases ih h with h2 | h2
        · exact Or.inl (List.mem_cons_of_mem _ h2)
        · exact Or.inr h2

theorem nodupKeys_eraseEntry (l : List (SessionId × SSHSession)) (id : SessionId)
    (h : nodupKeys l) : nodupKeys (eraseEntry l id) := by
  induction l with
  | nil => simpa [eraseEntry] using h
  | cons p rest ih =>
    obtain ⟨pid, ps⟩ := p
    obtain ⟨hhead, htail⟩ := List.nodup_cons.mp h
    by_cases hp : pid = id
    · simpa [eraseEntry, hp] using htail
    · have he : eraseEntry ((pid, ps) :: rest) id = (pid, ps) :: eraseEntry rest id := by
        simp [eraseEntry, hp]
      have hsub : pid ∉ (eraseEntry rest id).map Prod.fst := by
        intro hmem
        rcases List.mem_map.mp hmem with ⟨q, hq, hqk⟩
        exact hhead (List.mem_map.mpr ⟨q, mem_eraseEntry_sub rest id q hq, hqk⟩)
      unfold nodupKeys
      rw [he, List.map_cons]
      exact List.nodup_cons.mpr ⟨hsub, ih htail⟩

theorem nodupKeys_setEntry (l : List (SessionId × SSHSession)) (id : SessionId)
    (s : SSHSession) (h : nodupKeys l) : nodupKeys (setEntry l id s) := by
  induction l with
  | nil => simp [setEntry, nodupKeys]
  | cons p rest ih =>
    obtain ⟨pid, ps⟩ := p
    obtain ⟨hhead, htail⟩ := List.nodup_cons.mp h
    by_cases hp : pid = id
    · subst hp
      have he : setEntry ((pid, ps) :: rest) pid s = (pid, s) :: rest := by
        simp [setEntry]
      unfold nodupKeys
      rw [he, List.map_cons]
      exact List.nodup_cons.mpr ⟨hhead, htail⟩
    · have he : setEntry ((pid, ps) :: rest) id s = (pid, ps) :: setEntry rest id s := by
        simp [setEntry, hp]
      unfold nodupKeys
      rw [he, List.map_cons]
      refine List.nodup_cons.mpr ⟨?_, ih htail⟩
      intro hmem
      rcases List.mem_map.mp hmem with ⟨q, hq, hqk⟩
      rcases mem_setEntry_sub rest id s q hq with h2 | h2
      · exact hhead (List.mem_map.mpr ⟨q, h2, hqk⟩)
      · rw [h2] at hqk
        exact hp hqk.symm

theorem closeSession_preserves_nodup (st : ManagerState) (id : SessionId)
    (h : nodupKeys st.sessions) : nodupKeys (closeSession st id).1.sessions := by
  unfold closeSession
  cases hg : getEntry st.sessions id with
  | none => simpa using h
  | some s => simpa using nodupKeys_eraseEntry st.sessions id h

theorem closeSession_preserves_wf (st : ManagerState) (id : SessionId)
    (h : wfCounters st) : wfCounters (closeSession st id).1 := by
  unfold closeSession
  cases hg : getEntry st.sessions id with
  | none => simpa using h
  | some s =>
    intro p hp
    simp at hp ⊢
    exact h p (mem_eraseEntry_sub st.sessions id p (by simpa using hp))

theorem getSession_preserves_nodup (now : Nat) (st : ManagerState) (id : SessionId)
    (h : nodupKeys st.sessions) : nodupKeys (getSession now st id).1.sessions := by
  unfold getSession
  cases hg : getEntry st.sessions id with
  | none => simpa using h
  | some s =>
    by_cases hexp : now > s.info.expiresAt
    · simpa [hexp] using closeSession_preserves_nodup st id h
    · simpa [hexp] using nodupKeys_setEntry st.sessions id _ h

theorem getSession_preserves_wf (now : Nat) (st : ManagerState) (id : SessionId)
    (h : wfCounters st) : wfCounters (getSession now st id).1 := by
  unfold getSession
  cases hg : getEntry st.sessions id with
  | none => simpa using h
  | some s =>
    by_cases hexp : now > s.info.expiresAt
    · simpa [hexp] using closeSession_preserves_wf st id h
    · simp [hexp]
      intro p hp
      rcases mem_setEntry_sub st.sessions id _ p hp with h2 | h2
      · exact h p h2
      · rw [h2]
        exact h (id, s) (mem_of_getEntry_some st.sessions id s hg)

theorem evict_preserves_nodup (now : Nat) (st : ManagerState)
    (h : nodupKeys st.sessions) : nodupKeys (evictOldestSession now st).sessions := by
  unfold evictOldestSession
  cases hs : scanOldest now st.sessions with
  | none => simpa using h
  | some oldest => simpa using closeSession_preserves_nodup st oldest h

theorem evict_preserves_wf (now : Nat) (st : ManagerState)
    (h : wfCounters st) : wfCounters (evictOldestSession now st) := by
  unfold evictOldestSession
  cases hs : scanOldest now st.sessions with
  | none => simpa using h
  | some oldest => simpa using closeSession_preserves_wf st oldest h

theorem openPrep_preserves_nodup (now : Nat) (st : ManagerState)
    (h : nodupKeys st.sessions) : nodupKeys (openPrep now st).sessions := by
  unfold openPrep
  by_cases hc : st.sessions.length ≥ st.maxSessions
  · simpa [hc] using
      evict_preserves_nodup now { st with sessionCounter := st.sessionCounter + 1 } h
  · simpa [hc] using h

theorem openPrep_preserves_wf (now : Nat) (st : ManagerState)
    (h : wfCounters st) : wfCounters (openPrep now st) := by
  unfold openPrep
  have hbump : wfCounters { st with sessionCounter := st.sessionCounter + 1 } := by
    intro p hp
    simp at hp ⊢
    exact Nat.le_succ_of_le (h p hp)
  by_cases hc : st.sessions.length ≥ st.maxSessions
  · simpa [hc] using
      evict_preserves_wf now { st with sessionCounter := st.sessionCounter + 1 } hbump
  · simpa [hc] using hbump

theorem openSession_preserves_nodup (env : OpenEnv) (now : Nat) (params : ConnectionParams)
    (st : ManagerState) (h : nodupKeys st.sessions) :
    nodupKeys (openSession env now params st).1.sessions := by
  unfold openSession
  cases ha : buildAuthConfig env.authEnv params with
  | error e => simpa using openPrep_preserves_nodup now st h
  | ok cfg =>
    by_cases hc : env.connectOk
    · by_cases hs : env.sftpOk
      · simpa [hc, hs] using
          nodupKeys_setEntry (openPrep now st).sessions _ _ (openPrep_preserves_nodup now st h)
      · simpa [hc, hs] using openPrep_preserves_nodup now st h
    · simpa [hc] using openPrep_preserves_nodup now st h

theorem openSession_preserves_wf (env : OpenEnv) (now : Nat) (params : ConnectionParams)
    (st : ManagerState) (h : wfCounters st) :
    wfCounters (openSession env now params st).1 := by
  have hprep := openPrep_preserves_wf now st h
  have hctr := openPrep_counter now st
  unfold openSession
  cases ha : buildAuthConfig env.authEnv params with
  | error e => simpa using hprep
  | ok cfg =>
    by_cases hc : env.connectOk
    · by_cases hs : env.sftpOk
      · simp [hc, hs]
        intro p hp
        rcases mem_setEntry_sub (openPrep now st).sessions _ _ p hp with h2 | h2
        · have := hprep p h2
          simpa [hctr] using this
        · rw [h2]
          simp [generateSessionId, hctr]
      · simpa [hc, hs] using hprep
    · simpa [hc] using hprep

theorem reconnect_preserves_nodup (env : OpenEnv) (now : Nat) (st : ManagerState)
    (id : SessionId) (h : nodupKeys st.sessions) :
    nodupKeys (reconnectSession env now st id).1.sessions := by
  cases hg : getEntry st.sessions id with
  | none =>
    have hstep : reconnectSession env now st id = (st, Except.ok none) := by
      simp [reconnectSession, hg]
    rw [hstep]
    exact h
  | some s =>
    cases hcp : s.connectionParams with
    | none =>
      have hstep : reconnectSession env now st id = (st, Except.ok none) := by
        simp [reconnectSession, hg, hcp]
      rw [hstep]
      exact h
    | some params =>
      have hclose : nodupKeys (closeSession st id).1.sessions :=
        closeSession_preserves_nodup st id h
      have hopen := openSession_preserves_nodup env now params (closeSession st id).1 hclose
      have hstep : (reconnectSession env now st id).1 =
          (openSession env now params (closeSession st id).1).1 := by
        cases ho : openSession env now params (closeSession st id).1 with
        | mk st2 res => cases res <;> simp [reconnectSession, hg, hcp, ho]
      rw [hstep]
      exact hopen

theorem reconnect_preserves_wf (env : OpenEnv) (now : Nat) (st : ManagerState)
    (id : SessionId) (h : wfCounters st) :
    wfCounters (reconnectSession env now st id).1 := by
  cases hg : getEntry st.sessions id with
  | none =>
    have hstep : reconnectSession env now st id = (st, Except.ok none) := by
      simp [reconnectSession, hg]
    rw [hstep]
    exact h
  | some s =>
    cases hcp : s.connectionParams with
    | none =>
      have hstep : reconnectSession env now st id = (st, Except.ok none) := by
        simp [reconnectSession, hg, hcp]
      rw [hstep]
      exact h
    | some params =>
      have hclose : wfCounters (closeSession st id).1 := closeSession_preserves_wf st id h
      have hopen := openSession_preserves_wf env now params (closeSession st id).1 hclose
      have hstep : (reconnectSession env now st id).1 =
          (openSession env now params (closeSession st id).1).1 := by
        cases ho : openSession env now params (closeSession st id).1 with
        | mk st2 res => cases res <;> simp [reconnectSession, hg, hcp, ho]
      rw [hstep]
      exact hopen
